import Mathlib

/-
Verification of the tailfin-api flight-logbook service.

Shallow embedding of the parts of the code the claims are about:
 * src/schemas/aircraft.py   - aircraft category/class enums and validator
 * src/schemas/utils.py      - PositiveFloat validation (ge=0 + 2-decimal rounding)
 * src/database/flights.py   - retrieve_totals, insert_flight, update_flight,
                               update_flight_fields, delete_flight
 * src/database/aircraft.py  - retrieve_aircraft_by_tail/by_id, update_aircraft_field
 * src/database/tokens.py    - is_blacklisted, blacklist_token
 * src/app/deps.py           - get_current_user, admin_required
 * src/routes/auth.py        - logout
 * src/routes/flights.py     - get_flight, update_flight, patch_flight, delete_flight
 * src/routes/users.py       - remove_user (DELETE /users/user_id)

Numeric convention: decimal-hour and meter values (Python floats holding
two-decimal quantities) are modelled as rationals; dates/datetimes are
modelled as integers ordered like timestamps; MongoDB ObjectIds and JWT
strings are modelled as Lean strings.
-/

namespace Tailfin

/-! ### Aircraft category and class enums (src/schemas/aircraft.py lines 41-84) -/

/-- Embeds the AircraftCategory enum (src/schemas/aircraft.py lines 41-48). -/
inductive AircraftCategory where
  | airplane
  | rotorcraft
  | powered_lift
  | glider
  | lighter_than_air
  | ppg
  | weight_shift
deriving Repr, DecidableEq

/-- Embeds the AircraftClass enum (src/schemas/aircraft.py lines 54-81). -/
inductive AircraftClass where
  | sel
  | ses
  | mel
  | mes
  | helicopter
  | gyroplane
  | powered_lift
  | glider
  | airship
  | balloon
  | ppl
  | pps
  | wsl
  | wss
deriving Repr, DecidableEq

/-- Display value of each category member (the .value strings of the enum). -/
def AircraftCategory.value : AircraftCategory → String
  | .airplane => "Airplane"
  | .rotorcraft => "Rotorcraft"
  | .powered_lift => "Powered Lift"
  | .glider => "Glider"
  | .lighter_than_air => "Lighter-Than-Air"
  | .ppg => "Powered Parachute"
  | .weight_shift => "Weight-Shift Control"

/-- Display value of each class member (the .value strings of the enum). -/
def AircraftClass.value : AircraftClass → String
  | .sel => "Single-Engine Land"
  | .ses => "Single-Engine Sea"
  | .mel => "Multi-Engine Land"
  | .mes => "Multi-Engine Sea"
  | .helicopter => "Helicopter"
  | .gyroplane => "Gyroplane"
  | .powered_lift => "Powered Lift"
  | .glider => "Glider"
  | .airship => "Airship"
  | .balloon => "Balloon"
  | .ppl => "Powered Parachute Land"
  | .pps => "Powered Parachute Sea"
  | .wsl => "Weight-Shift Control Land"
  | .wss => "Weight-Shift Control Sea"

/-- Embeds the category_class dict (src/schemas/aircraft.py lines 9-38).
The dict is keyed by the category display strings and lists class display
strings; here each string is written through the enum member whose .value is
exactly that string, in the order of the source dict. -/
def category_class : AircraftCategory → List AircraftClass
  | .airplane => [.sel, .mel, .ses, .mes]
  | .rotorcraft => [.helicopter, .gyroplane]
  | .powered_lift => [.powered_lift]
  | .glider => [.glider]
  | .lighter_than_air => [.airship, .balloon]
  | .ppg => [.ppl, .pps]
  | .weight_shift => [.wsl, .wss]

/-- Embeds AircraftCreateSchema.validate_class (src/schemas/aircraft.py lines
96-129). Pydantic has already coerced both fields to enum members before this
validator runs, and aircraft_category is present in info.data exactly when it
itself validated. The validator raises ValueError (validation failure) in the
listed branches and otherwise returns v; true models acceptance. -/
def validate_class (category : AircraftCategory) (v : AircraftClass) : Bool :=
  if category = .airplane ∧ v ∉ [AircraftClass.sel, AircraftClass.mel,
      AircraftClass.ses, AircraftClass.mes] then false
  else if category = .rotorcraft ∧ v ∉ [AircraftClass.helicopter,
      AircraftClass.gyroplane] then false
  else if category = .powered_lift ∧ ¬v = AircraftClass.powered_lift then false
  else if category = .glider ∧ ¬v = AircraftClass.glider then false
  else if category = .lighter_than_air ∧ v ∉ [AircraftClass.airship,
      AircraftClass.balloon] then false
  else if category = .ppg ∧ v ∉ [AircraftClass.ppl, AircraftClass.pps] then false
  else if category = .weight_shift ∧ v ∉ [AircraftClass.wsl,
      AircraftClass.wss] then false
  else true

/-! ### Flight and aircraft records (src/database/models.py, src/schemas/flight.py) -/

/-- A stored flight document, restricted to the fields the verified operations
read or write. Durations are decimal hours (rationals), the date an integer
timestamp, ids and tail numbers strings. -/
structure Flight where
  id : String
  user : String
  date : Int
  aircraft : String
  time_total : Rat := 0
  time_solo : Rat := 0
  time_night : Rat := 0
  time_pic : Rat := 0
  time_sic : Rat := 0
  time_instrument : Rat := 0
  time_sim : Rat := 0
  time_xc : Rat := 0
  dual_recvd : Rat := 0
  landings_day : Int := 0
  landings_night : Int := 0
  hobbs_end : Option Rat := none
deriving Repr, DecidableEq

/-- A stored aircraft document (src/schemas/aircraft.py AircraftDisplaySchema;
category and class are stored as enum names by aircraft_add_helper, modelled
here directly by the enum members). -/
structure Aircraft where
  id : String
  user : String
  tail_no : String
  aircraft_category : AircraftCategory
  aircraft_class : AircraftClass
  hobbs : Rat := 0
deriving Repr, DecidableEq

/-! ### retrieve_totals (src/database/flights.py lines 49-146) -/

/-- The result document of the totals_pipeline $group stage (src/database/
flights.py lines 107-124): one accumulator per listed field. -/
structure Totals where
  time_total : Rat
  time_solo : Rat
  time_night : Rat
  time_pic : Rat
  time_sic : Rat
  time_instrument : Rat
  time_sim : Rat
  time_xc : Rat
  landings_day : Int
  landings_night : Int
  xc_dual_recvd : Rat
  xc_solo : Rat
  xc_pic : Rat
  night_dual_recvd : Rat
  night_pic : Rat
deriving Repr, DecidableEq

/-- Embeds the $group stage of totals_pipeline (src/database/flights.py lines
107-124): straight $sum accumulators for the ten plain fields and
$sum-of-$min accumulators for the five overlap metrics. -/
def totalsGroup (fs : List Flight) : Totals where
  time_total := (fs.map Flight.time_total).sum
  time_solo := (fs.map Flight.time_solo).sum
  time_night := (fs.map Flight.time_night).sum
  time_pic := (fs.map Flight.time_pic).sum
  time_sic := (fs.map Flight.time_sic).sum
  time_instrument := (fs.map Flight.time_instrument).sum
  time_sim := (fs.map Flight.time_sim).sum
  time_xc := (fs.map Flight.time_xc).sum
  landings_day := (fs.map Flight.landings_day).sum
  landings_night := (fs.map Flight.landings_night).sum
  xc_dual_recvd := (fs.map (fun f => min f.time_xc f.dual_recvd)).sum
  xc_solo := (fs.map (fun f => min f.time_xc f.time_solo)).sum
  xc_pic := (fs.map (fun f => min f.time_xc f.time_pic)).sum
  night_dual_recvd := (fs.map (fun f => min f.time_night f.dual_recvd)).sum
  night_pic := (fs.map (fun f => min f.time_night f.time_pic)).sum

/-- Denotation of the match dict built at src/database/flights.py lines 55-60:
user equality plus inclusive $gte/$lte bounds on the flight date when the
corresponding optional bound is present. Note that retrieve_totals builds this
dict but never passes it to either pipeline. -/
def match_pred (user : String) (start_date end_date : Option Int)
    (f : Flight) : Bool :=
  f.user == user
    && (match start_date with
        | some d => decide (d ≤ f.date)
        | none => true)
    && (match end_date with
        | some d => decide (f.date ≤ d)
        | none => true)

/-- Embeds the totals_pipeline (src/database/flights.py lines 105-126) run on
the flight collection: {"$match": {"user": uid}} (only the user, no date
bounds) followed by the single-group $group; with no matching input documents
$group produces no output document. -/
def totals_list (flights : List Flight) (user : String) : List Totals :=
  let matched := flights.filter (fun f => f.user == user)
  if matched.isEmpty then [] else [totalsGroup matched]

/-- Embeds the by_class_pipeline (src/database/flights.py lines 62-100) run on
the aircraft collection: $match on the user's aircraft, $lookup of flights
whose aircraft field equals the aircraft's tail number (any user's flights),
$unwind, then a two-level $group keyed first on (category, class) summing
flight time_total, then on category pushing the class entries. Group output
order, unspecified in MongoDB, is modelled as first-appearance order; no
verified claim depends on it. -/
def by_class_list (aircraftL : List Aircraft) (flights : List Flight)
    (user : String) : List (AircraftCategory × List (AircraftClass × Rat)) :=
  let matched := aircraftL.filter (fun a => a.user == user)
  let unwound := matched.flatMap
    (fun a => (flights.filter (fun f => f.aircraft == a.tail_no)).map
      (fun f => (a, f)))
  let keys1 := (unwound.map
    (fun p => (p.1.aircraft_category, p.1.aircraft_class))).dedup
  let grouped1 := keys1.map (fun k =>
    (k, ((unwound.filter (fun p =>
      (p.1.aircraft_category, p.1.aircraft_class) = k)).map
        (fun p => p.2.time_total)).sum))
  let keys2 := (grouped1.map (fun kv => kv.1.1)).dedup
  keys2.map (fun c =>
    (c, (grouped1.filter (fun kv => kv.1.1 = c)).map
      (fun kv => (kv.1.2, kv.2))))

/-- One by_class result entry after the display mapping of src/database/
flights.py lines 136-139: stored enum names replaced by their display values
through aircraft_category_dict / aircraft_class_dict. -/
structure ByClassEntry where
  aircraft_category : String
  classes : List (String × Rat)
deriving Repr, DecidableEq

/-- The display mapping applied to a by_class group (src/database/flights.py
lines 136-139). -/
def display_by_class
    (e : AircraftCategory × List (AircraftClass × Rat)) : ByClassEntry where
  aircraft_category := e.1.value
  classes := e.2.map (fun p => (p.1.value, p.2))

/-- Possible outcomes of retrieve_totals: the empty dict returned at line 132,
the IndexError raised by totals_list[0] at line 134 when totals_list is empty
but by_class_list is not, or the result dict of lines 141-144. -/
inductive TotalsResponse where
  | emptyDict
  | indexError
  | result (by_class : List ByClassEntry) (totals : Totals)
deriving Repr, DecidableEq

/-- Embeds retrieve_totals (src/database/flights.py lines 49-146). The match
dict with the optional inclusive date bounds is constructed at lines 55-60 but
is dead: both pipelines open with a literal {"$match": {"user": uid}}, so
start_date and end_date do not influence the result. -/
def retrieve_totals (flights : List Flight) (aircraftL : List Aircraft)
    (user : String) (start_date end_date : Option Int) : TotalsResponse :=
  let deadMatch := fun f => match_pred user start_date end_date f
  let bcl := by_class_list aircraftL flights user
  let tl := totals_list flights user
  let _ := deadMatch
  if tl.isEmpty ∧ bcl.isEmpty then .emptyDict
  else
    match tl with
    | [] => .indexError
    | t :: _ => .result (bcl.map display_by_class) t

/-! ### Authorization levels (src/schemas/user.py lines 23-41, src/schemas.py lines 60-78) -/

/-- Embeds the AuthLevel enum: GUEST = 0, USER = 1, ADMIN = 2. -/
inductive AuthLevel where
  | GUEST
  | USER
  | ADMIN
deriving Repr, DecidableEq

/-- Numeric value of each AuthLevel member. -/
def AuthLevel.value : AuthLevel → Int
  | .GUEST => 0
  | .USER => 1
  | .ADMIN => 2

/-- Embeds AuthLevel.__lt__: comparison of the members' numeric values. -/
def AuthLevel.lt (a b : AuthLevel) : Bool :=
  a.value < b.value

/-! ### Token lifecycle (src/database/tokens.py, src/app/deps.py, src/routes/auth.py) -/

/-- A user document as resolved by authentication (schemas.GetSystemUserSchema
backed by database.models.User). -/
structure AuthUser where
  id : String
  username : String
  password : String
  level : AuthLevel
deriving Repr, DecidableEq

/-- The decoded JWT payload (schemas TokenPayload): subject user id and expiry
timestamp. -/
structure TokenData where
  sub : String
  exp : Int
deriving Repr, DecidableEq

/-- Embeds is_blacklisted (src/database/tokens.py lines 4-14): find_one on the
token_blacklist collection, true exactly when a document with this token
string exists. -/
def is_blacklisted (blacklist : List String) (token : String) : Bool :=
  blacklist.contains token

/-- Embeds blacklist_token (src/database/tokens.py lines 17-25) with the
insert_one actually executed (awaited): the token document is appended to the
token_blacklist collection, duplicates permitted, and the call itself never
errors on an already-present token. -/
def blacklist_token (blacklist : List String) (token : String) : List String :=
  blacklist ++ [token]

/-- Embeds logout (src/routes/auth.py lines 43-59). The body reads
blacklisted = tokens.blacklist_token(token) with no await: the coroutine
object is created but never run, so no insert into the token blacklist ever
happens, and since a coroutine object is truthy the "Logout failed" branch is
not taken. The blacklist state is therefore returned unchanged together with
the success message. -/
def logout (blacklist : List String) (token : String) : List String × String :=
  let notAwaitedInsert := fun () => blacklist_token blacklist token
  let _ := notAwaitedInsert
  (blacklist, "Logout successful")

/-- Outcomes of get_current_user (src/app/deps.py lines 20-42). The blacklist
hit raises HTTPException(403, "Token expired") at line 35; it is the revoked
rejection, distinct from expired401 raised on a past exp at line 29. -/
inductive AuthResult where
  | invalid403
  | expired401
  | revoked403
  | notFound404
  | ok (u : AuthUser)
deriving Repr, DecidableEq

/-- Embeds get_current_user (src/app/deps.py lines 20-42): jwt.decode failure
(bad signature or malformed payload, modelled by decoded = none) gives 403,
then expiry is compared against now, then the token string is looked up in the
TokenBlacklist collection, then the subject user is resolved. -/
def get_current_user (users : List AuthUser) (blacklist : List String)
    (now : Int) (decoded : Option TokenData) (token : String) : AuthResult :=
  match decoded with
  | none => .invalid403
  | some td =>
    if td.exp < now then .expired401
    else if is_blacklisted blacklist token then .revoked403
    else
      match users.find? (fun u => u.id == td.sub) with
      | none => .notFound404
      | some u => .ok u

/-! ### Admin gate (src/app/deps.py lines 71-73, src/routes/users.py lines 50-70) -/

/-- Embeds admin_required (src/app/deps.py lines 71-73): raises
HTTPException(403, "Access unauthorized") when the authenticated user's level
compares strictly below ADMIN under AuthLevel.__lt__. -/
def admin_required (level : AuthLevel) : Except Nat Unit :=
  if AuthLevel.lt level .ADMIN then .error 403 else .ok ()

/-- Embeds remove_user (src/routes/users.py lines 50-70) past its admin gate:
User.objects.get(id=user_id).delete() - HTTPException(401) when the user does
not exist - followed by Flight.objects(user=user_id).delete(), the cascading
delete of that user's flights. User ids are unique, so deleting the single
fetched document removes every document with that id. -/
def remove_user (users : List AuthUser) (flights : List Flight)
    (user_id : String) : Except Nat (List AuthUser × List Flight) :=
  match users.find? (fun u => u.id == user_id) with
  | none => .error 401
  | some _ =>
    .ok (users.filter (fun u => ¬u.id == user_id),
         flights.filter (fun f => ¬f.user == user_id))

/-- The DELETE /users/user_id route (src/routes/users.py lines 50-52):
dependencies=[Depends(admin_required)] runs the gate on the authenticated
identity before the handler body. -/
def delete_users_route (actor_level : AuthLevel) (users : List AuthUser)
    (flights : List Flight) (user_id : String) :
    Except Nat (List AuthUser × List Flight) :=
  match admin_required actor_level with
  | .error e => .error e
  | .ok () => remove_user users flights user_id

/-! ### Aircraft store operations (src/database/aircraft.py) -/

/-- Embeds retrieve_aircraft_by_tail (src/database/aircraft.py lines 29-41)
without the not-found exception: find_one {"tail_no": tail_no}. -/
def retrieve_aircraft_by_tail (store : List Aircraft)
    (tail_no : String) : Option Aircraft :=
  store.find? (fun a => a.tail_no == tail_no)

/-- Embeds find_one {"_id": id} on the aircraft collection
(src/database/aircraft.py lines 44-56). -/
def retrieve_aircraft_by_id (store : List Aircraft) (id : String) :
    Option Aircraft :=
  store.find? (fun a => a.id == id)

/-- Embeds update_aircraft_field applied to the "hobbs" field
(src/database/aircraft.py lines 91-113): update_one {"_id": id}
{"$set": {"hobbs": value}} updates the first document with that id. -/
def set_hobbs_first : List Aircraft → String → Rat → List Aircraft
  | [], _, _ => []
  | a :: rest, id, v =>
    if a.id == id then { a with hobbs := v } :: rest
    else a :: set_hobbs_first rest id v

/-! ### Flight store operations (src/database/flights.py lines 149-270) -/

/-- Embeds find_one {"_id": id} on the flight collection
(src/database/flights.py retrieve_flight, lines 149-161, sans exception). -/
def find_flight (flights : List Flight) (id : String) : Option Flight :=
  flights.find? (fun f => f.id == id)

/-- Embeds the route-level DB effect of insert_flight (src/database/flights.py
lines 164-184): look up the referenced aircraft by tail number (404 when
absent); when body.hobbs_end is truthy (present and nonzero), positive, and
differs from the aircraft's stored hobbs, update that aircraft's hobbs to
body.hobbs_end; then insert the flight with the creating user's id attached by
flight_add_helper (Mongo's fresh _id is kept abstract as the body's id). -/
def insert_flight (aircraftL : List Aircraft) (flights : List Flight)
    (body : Flight) (uid : String) :
    Except Nat (List Aircraft × List Flight) :=
  match retrieve_aircraft_by_tail aircraftL body.aircraft with
  | none => .error 404
  | some aircraft =>
    let aircraftL' :=
      match body.hobbs_end with
      | some he =>
        if he ≠ 0 ∧ 0 < he ∧ he ≠ aircraft.hobbs then
          set_hobbs_first aircraftL aircraft.id he
        else aircraftL
      | none => aircraftL
    .ok (aircraftL', flights ++ [{ body with user := uid }])

/-- Embeds update_one {"_id": id} {"$set": body.model_dump()}: the first
flight with this id has every body field overwritten; _id and user are not in
the dumped FlightCreateSchema body and stay as stored. -/
def set_flight_first : List Flight → String → Flight → List Flight
  | [], _, _ => []
  | f :: rest, fid, body =>
    if f.id == fid then { body with id := f.id, user := f.user } :: rest
    else f :: set_flight_first rest fid body

/-- Embeds update_flight (src/database/flights.py lines 187-215): 404 when the
flight or the referenced aircraft does not exist; the hobbs guard at line 206
reads body.hobbs_end and body.hobbs_end and 0 < aircraft.hobbs !=
body.hobbs_end, i.e. truthiness of hobbs_end twice, then the chained
comparison 0 < aircraft.hobbs together with aircraft.hobbs != hobbs_end; then
the $set of the full body. -/
def update_flight (aircraftL : List Aircraft) (flights : List Flight)
    (body : Flight) (fid : String) :
    Except Nat (List Aircraft × List Flight) :=
  match find_flight flights fid with
  | none => .error 404
  | some _ =>
    match retrieve_aircraft_by_tail aircraftL body.aircraft with
    | none => .error 404
    | some aircraft =>
      let aircraftL' :=
        match body.hobbs_end with
        | some he =>
          if he ≠ 0 ∧ he ≠ 0 ∧ 0 < aircraft.hobbs ∧ aircraft.hobbs ≠ he then
            set_hobbs_first aircraftL aircraft.id he
          else aircraftL
        | none => aircraftL
      .ok (aircraftL', set_flight_first flights fid body)

/-- Embeds delete_flight (src/database/flights.py lines 257-270): 404 when the
flight does not exist, else delete_one {"_id": id} and return the deleted
document. -/
def delete_flight_db (flights : List Flight) (fid : String) :
    Except Nat (Flight × List Flight) :=
  match find_flight flights fid with
  | none => .error 404
  | some f => .ok (f, flights.filter (fun g => ¬g.id == fid))

/-- The fs_keys list (src/database/flights.py line 19): the annotation keys of
FlightPatchSchema followed by those declared directly on FlightDisplaySchema. -/
def fs_keys : List String :=
  ["date", "aircraft", "waypoint_from", "waypoint_to", "route",
   "hobbs_start", "hobbs_end",
   "time_start", "time_off", "time_down", "time_stop",
   "time_total", "time_pic", "time_sic", "time_night", "time_solo",
   "time_xc", "dist_xc",
   "landings_day", "landings_night",
   "time_instrument", "time_sim_instrument", "holds_instrument",
   "dual_given", "dual_recvd", "time_sim", "time_ground",
   "tags", "pax", "crew", "images", "comments",
   "user", "id"]

/-- A PATCH body (src/schemas/flight.py FlightPatchSchema) restricted to the
modelled flight fields: keys records update.keys(), and each optional field
holds the submitted, already-validated value when that field was submitted. -/
structure FlightPatch where
  keys : List String
  date : Option Int := none
  aircraft : Option String := none
  time_total : Option Rat := none
  time_solo : Option Rat := none
  time_night : Option Rat := none
  time_pic : Option Rat := none
  time_sic : Option Rat := none
  time_instrument : Option Rat := none
  time_sim : Option Rat := none
  time_xc : Option Rat := none
  dual_recvd : Option Rat := none
  landings_day : Option Int := none
  landings_night : Option Int := none
  hobbs_end : Option Rat := none
deriving Repr, DecidableEq

/-- Application of the update_dict built at src/database/flights.py line 241:
a field is overwritten exactly when its name was among the submitted keys and
FlightPatchSchema parsed a value for it; user and id are not FlightPatchSchema
fields and are never overwritten. -/
def apply_patch (f : Flight) (p : FlightPatch) : Flight where
  id := f.id
  user := f.user
  date := if p.keys.contains "date" then p.date.getD f.date else f.date
  aircraft :=
    if p.keys.contains "aircraft" then p.aircraft.getD f.aircraft
    else f.aircraft
  time_total :=
    if p.keys.contains "time_total" then p.time_total.getD f.time_total
    else f.time_total
  time_solo :=
    if p.keys.contains "time_solo" then p.time_solo.getD f.time_solo
    else f.time_solo
  time_night :=
    if p.keys.contains "time_night" then p.time_night.getD f.time_night
    else f.time_night
  time_pic :=
    if p.keys.contains "time_pic" then p.time_pic.getD f.time_pic
    else f.time_pic
  time_sic :=
    if p.keys.contains "time_sic" then p.time_sic.getD f.time_sic
    else f.time_sic
  time_instrument :=
    if p.keys.contains "time_instrument" then
      p.time_instrument.getD f.time_instrument
    else f.time_instrument
  time_sim :=
    if p.keys.contains "time_sim" then p.time_sim.getD f.time_sim
    else f.time_sim
  time_xc :=
    if p.keys.contains "time_xc" then p.time_xc.getD f.time_xc else f.time_xc
  dual_recvd :=
    if p.keys.contains "dual_recvd" then p.dual_recvd.getD f.dual_recvd
    else f.dual_recvd
  landings_day :=
    if p.keys.contains "landings_day" then p.landings_day.getD f.landings_day
    else f.landings_day
  landings_night :=
    if p.keys.contains "landings_night" then
      p.landings_night.getD f.landings_night
    else f.landings_night
  hobbs_end :=
    if p.keys.contains "hobbs_end" then
      match p.hobbs_end with
      | some v => some v
      | none => f.hobbs_end
    else f.hobbs_end

/-- Embeds set_flight_first for a patch: update_one {"_id": id}
{"$set": update_dict} modifies the first flight with this id. -/
def patch_flight_first : List Flight → String → FlightPatch → List Flight
  | [], _, _ => []
  | f :: rest, fid, p =>
    if f.id == fid then apply_patch f p :: rest
    else f :: patch_flight_first rest fid p

/-- Embeds update_flight_fields (src/database/flights.py lines 218-254):
400 on a submitted field name outside fs_keys, 404 when the flight does not
exist, 404 when an "aircraft" entry references a nonexistent tail number
(value validation, which would give 422, is carried by the typed patch), then
the $set of the filtered update_dict. -/
def update_flight_fields (aircraftL : List Aircraft) (flights : List Flight)
    (fid : String) (p : FlightPatch) : Except Nat (List Flight) :=
  if p.keys.any (fun k => ¬fs_keys.contains k) then .error 400
  else
    match find_flight flights fid with
    | none => .error 404
    | some _ =>
      let aircraftOk :=
        if p.keys.contains "aircraft" then
          match p.aircraft with
          | some t => (retrieve_aircraft_by_tail aircraftL t).isSome
          | none => true
        else true
      if ¬aircraftOk then .error 404
      else .ok (patch_flight_first flights fid p)

/-! ### Flight routes (src/routes/flights.py) -/

/-- The authenticated caller as seen by the flight routes
(schemas.user.UserDisplaySchema). -/
structure RouteUser where
  id : String
  username : String
  level : AuthLevel
deriving Repr, DecidableEq

/-- Embeds the get_flight route (src/routes/flights.py lines 97-112): retrieve
by id (404 when absent), then HTTPException(403) when the stored flight's user
differs from the caller's id and the caller's level is not ADMIN. -/
def get_flight_route (flights : List Flight) (u : RouteUser)
    (fid : String) : Except Nat Flight :=
  match find_flight flights fid with
  | none => .error 404
  | some f =>
    if f.user ≠ u.id ∧ u.level ≠ AuthLevel.ADMIN then .error 403
    else .ok f

/-- Embeds the update_flight route (src/routes/flights.py lines 159-180): it
first calls get_flight (propagating its 403/404), repeats the ownership check
on the returned flight, then delegates to db.update_flight. An error return
means no database write was issued, so the stores are unchanged. -/
def update_flight_route (aircraftL : List Aircraft) (flights : List Flight)
    (u : RouteUser) (fid : String) (body : Flight) :
    Except Nat (List Aircraft × List Flight) :=
  match get_flight_route flights u fid with
  | .error e => .error e
  | .ok f =>
    if f.user ≠ u.id ∧ u.level ≠ AuthLevel.ADMIN then .error 403
    else update_flight aircraftL flights body fid

/-- Embeds the patch_flight route (src/routes/flights.py lines 183-203):
get_flight first (propagating 403/404), the repeated ownership check, then
db.update_flight_fields. An error return means no database write was issued. -/
def patch_flight_route (aircraftL : List Aircraft) (flights : List Flight)
    (u : RouteUser) (fid : String) (p : FlightPatch) :
    Except Nat (List Flight) :=
  match get_flight_route flights u fid with
  | .error e => .error e
  | .ok f =>
    if f.user ≠ u.id ∧ u.level ≠ AuthLevel.ADMIN then .error 403
    else update_flight_fields aircraftL flights fid p

/-- Embeds the delete_flight route (src/routes/flights.py lines 206-223):
get_flight first (propagating 403/404), the repeated ownership check, then
db.delete_flight. An error return means no database write was issued. -/
def delete_flight_route (flights : List Flight) (u : RouteUser)
    (fid : String) : Except Nat (Flight × List Flight) :=
  match get_flight_route flights u fid with
  | .error e => .error e
  | .ok f =>
    if f.user ≠ u.id ∧ u.level ≠ AuthLevel.ADMIN then .error 403
    else delete_flight_db flights fid

/-! ### PositiveFloat validation (src/schemas/utils.py lines 8-22) -/

/-- Banker's rounding of a rational to an integer: Python's round() rounds to
the nearest integer and breaks ties toward the even neighbour. -/
def round_half_even (x : Rat) : Int :=
  if x - ⌊x⌋ < 1 / 2 then ⌊x⌋
  else if 1 / 2 < x - ⌊x⌋ then ⌊x⌋ + 1
  else if ⌊x⌋ % 2 = 0 then ⌊x⌋ else ⌊x⌋ + 1

/-- Embeds round_two_decimal_places (src/schemas/utils.py lines 8-17) on a
float value: round(value, 2), i.e. banker's rounding at the second decimal,
modelled exactly over the rationals. -/
def round_two_decimal_places (x : Rat) : Rat :=
  (round_half_even (100 * x) : Rat) / 100

/-- Embeds the PositiveFloat / PositiveFloatNullable annotation
(src/schemas/utils.py lines 20-22) used for every duration and meter field of
FlightSchema and AircraftCreateSchema: Field(ge=0) rejects negative input,
then AfterValidator(round_two_decimal_places) rounds the accepted value. -/
def positive_float_validate (x : Rat) : Except String Rat :=
  if x < 0 then .error "Input should be greater than or equal to 0"
  else .ok (round_two_decimal_places x)

/-! ### Concrete fixtures used by witnesses and counterexamples -/

/-- A flight of user u1 dated at timestamp 0 with one logged hour. -/
def flight_u1_early : Flight :=
  { id := "f1", user := "u1", date := 0, aircraft := "N1", time_total := 1 }

/-- The all-zero totals record that the zeroed-struct policy would return. -/
def zero_totals : Totals :=
  { time_total := 0, time_solo := 0, time_night := 0, time_pic := 0,
    time_sic := 0, time_instrument := 0, time_sim := 0, time_xc := 0,
    landings_day := 0, landings_night := 0, xc_dual_recvd := 0, xc_solo := 0,
    xc_pic := 0, night_dual_recvd := 0, night_pic := 0 }

/-- A stored user account at USER level. -/
def user_u1 : AuthUser :=
  { id := "u1", username := "alice", password := "hash", level := .USER }

/-- A decoded token payload for user u1 expiring at timestamp 100. -/
def tok_data : TokenData := { sub := "u1", exp := 100 }

/-- Aircraft N12345 of user u1 at hobbs 100.0 (the spec scenario aircraft). -/
def ac_n12345 : Aircraft :=
  { id := "a1", user := "u1", tail_no := "N12345",
    aircraft_category := .airplane, aircraft_class := .sel, hobbs := 100 }

/-- A flight body on N12345 submitting hobbs_end = 0.0. -/
def body_hobbs_zero : Flight :=
  { id := "f8", user := "", date := 0, aircraft := "N12345",
    hobbs_end := some 0 }

/-- A flight body on N12345 submitting hobbs_end = 102.5. -/
def body_hobbs_1025 : Flight :=
  { id := "f9", user := "", date := 0, aircraft := "N12345",
    hobbs_end := some (205 / 2) }

/-- Two flights of user u1 with overlapping cross-country, night, pilot and
dual-received times. -/
def flight_g1 : Flight :=
  { id := "g1", user := "u1", date := 0, aircraft := "N1", time_total := 2,
    time_xc := 3 / 2, dual_recvd := 1, time_pic := 2, time_night := 1 / 2 }

/-- Second fixture flight of user u1. -/
def flight_g2 : Flight :=
  { id := "g2", user := "u1", date := 1, aircraft := "N1", time_total := 1,
    time_xc := 1 / 2, dual_recvd := 2, time_solo := 1 / 2, time_night := 1 }

/-- A USER-level caller distinct from u1. -/
def user_bob : RouteUser := { id := "u2", username := "bob", level := .USER }

/-! ### Claim theorems -/

/-- C1: the claim says retrieve_totals sums only flights whose date lies in
the inclusive start/end range. The code builds the date-bounded match dict
(lines 55-60) but never uses it, so a flight dated strictly before the start
bound still contributes its full times: with one flight at date 0 and
start_date 10, the flight fails the intended bound yet time_total comes back
as 1, not 0. -/
theorem C1_date_bounds_ignored :
    match_pred "u1" (some 10) none flight_u1_early = false
    ∧ retrieve_totals [flight_u1_early] [] "u1" (some 10) none =
        .result [] (totalsGroup [flight_u1_early])
    ∧ (totalsGroup [flight_u1_early]).time_total = 1 := by
  refine ⟨by decide, by rfl, by norm_num [totalsGroup, flight_u1_early]⟩

/-- C2 counterexample: with zero flights (and zero aircraft) the code returns
the empty dict {}, which is not a result carrying present-and-zero numeric
fields as the claim states. -/
theorem C2_zero_flights_counterexample :
    retrieve_totals [] [] "u1" none none = .emptyDict
    ∧ TotalsResponse.emptyDict ≠ .result [] zero_totals := by
  refine ⟨by decide, by decide⟩

/-- C2 amended: when the user has zero flights and the by-class aircraft join
is also empty, retrieve_totals returns the empty dict without failing; the
numeric total fields are absent rather than present and equal to zero. -/
theorem C2_zero_flights_empty_dict :
    ∀ (flights : List Flight) (aircraftL : List Aircraft) (user : String)
      (s e : Option Int),
      flights.filter (fun f => f.user == user) = [] →
      by_class_list aircraftL flights user = [] →
      retrieve_totals flights aircraftL user s e = .emptyDict := by
  intro flights aircraftL user s e h1 h2
  simp [retrieve_totals, totals_list, h1, h2]

/-- C2 witness: the amended statement at the concrete empty store. -/
theorem C2_zero_flights_empty_dict_witness :
    retrieve_totals [] [] "u1" none none = .emptyDict :=
  C2_zero_flights_empty_dict [] [] "u1" none none (by decide) (by decide)

/-- C4: the claim says a token is in the revocation list from the moment
logout returns, so a later authenticate with the same token is rejected as
revoked. In src/routes/auth.py lines 43-59 the call
tokens.blacklist_token(token) is not awaited, so the insert never executes:
logout still reports success, and a subsequent get_current_user with the same
valid unexpired token resolves the user instead of failing with the revoked
rejection. Had the insert been awaited (blacklist_token), the same
authenticate call would return revoked403. -/
theorem C4_logout_missing_await :
    logout [] "tok" = ([], "Logout successful")
    ∧ get_current_user [user_u1] (logout [] "tok").1 0 (some tok_data) "tok" =
        .ok user_u1
    ∧ get_current_user [user_u1] (blacklist_token [] "tok") 0 (some tok_data)
        "tok" = .revoked403 := by
  refine ⟨by decide, by decide, by decide⟩

/-- C7: aircraft category/class validation accepts exactly the pairs of the
fixed category_class mapping: for every category and class enum member,
validate_class succeeds if and only if the class belongs to the category's
list in the mapping (non-enum strings are already rejected by the enum
coercion that runs before this validator). -/
theorem C7_category_class_exact :
    ∀ (c : AircraftCategory) (v : AircraftClass),
      validate_class c v = true ↔ v ∈ category_class c := by
  intro c v
  cases c <;> cases v <;> decide

/-- C8: an admin-gated operation fails with Forbidden exactly when the
caller's authorization level is strictly below ADMIN in the ordering
GUEST < USER < ADMIN; an ADMIN-level caller passes the gate and
DELETE /users/user_id proceeds to the ungated handler body. -/
theorem C8_admin_gate :
    ∀ (lvl : AuthLevel) (users : List AuthUser) (flights : List Flight)
      (uid : String),
      ((admin_required lvl = .error 403) ↔
        lvl.value < AuthLevel.ADMIN.value)
      ∧ (AuthLevel.lt .GUEST .USER = true ∧ AuthLevel.lt .USER .ADMIN = true)
      ∧ ((delete_users_route lvl users flights uid = .error 403) ↔
          lvl ≠ .ADMIN)
      ∧ (lvl = .ADMIN →
          delete_users_route lvl users flights uid =
            remove_user users flights uid) := by
  intro lvl users flights uid
  refine ⟨?_, ⟨by decide, by decide⟩, ?_, ?_⟩
  · cases lvl <;> simp [admin_required, AuthLevel.lt, AuthLevel.value]
  · cases lvl with
    | GUEST =>
      simp [delete_users_route, admin_required, AuthLevel.lt, AuthLevel.value]
    | USER =>
      simp [delete_users_route, admin_required, AuthLevel.lt, AuthLevel.value]
    | ADMIN =>
      cases h : users.find? (fun u => u.id == uid) with
      | none =>
        simp [delete_users_route, admin_required, AuthLevel.lt,
          AuthLevel.value, remove_user, h]
      | some u =>
        simp [delete_users_route, admin_required, AuthLevel.lt,
          AuthLevel.value, remove_user, h]
  · intro h
    subst h
    simp [delete_users_route, admin_required, AuthLevel.lt, AuthLevel.value]

/-- C8 witness: a USER-level caller is rejected with 403 by the admin gate. -/
theorem C8_admin_gate_witness :
    admin_required AuthLevel.USER = .error 403 :=
  ((C8_admin_gate .USER [] [] "u9").1).mpr (by decide)

/-- C3: whenever retrieve_totals produces a result, its totals record carries
the ten plain fields as straight sums over the user's flights and the five
overlap metrics as sums of per-flight minima over the same set (the set the
pipeline actually aggregates: the user's flights, the date range being dead,
see C1). -/
theorem C3_totals_are_sums :
    ∀ (flights : List Flight) (aircraftL : List Aircraft) (user : String)
      (s e : Option Int) (bc : List ByClassEntry) (t : Totals),
      retrieve_totals flights aircraftL user s e = .result bc t →
      (t.time_total =
        ((flights.filter (fun f => f.user == user)).map Flight.time_total).sum
      ∧ t.time_pic =
        ((flights.filter (fun f => f.user == user)).map Flight.time_pic).sum
      ∧ t.time_sic =
        ((flights.filter (fun f => f.user == user)).map Flight.time_sic).sum
      ∧ t.time_night =
        ((flights.filter (fun f => f.user == user)).map Flight.time_night).sum
      ∧ t.time_solo =
        ((flights.filter (fun f => f.user == user)).map Flight.time_solo).sum
      ∧ t.time_instrument =
        ((flights.filter (fun f => f.user == user)).map
          Flight.time_instrument).sum
      ∧ t.time_sim =
        ((flights.filter (fun f => f.user == user)).map Flight.time_sim).sum
      ∧ t.time_xc =
        ((flights.filter (fun f => f.user == user)).map Flight.time_xc).sum
      ∧ t.landings_day =
        ((flights.filter (fun f => f.user == user)).map
          Flight.landings_day).sum
      ∧ t.landings_night =
        ((flights.filter (fun f => f.user == user)).map
          Flight.landings_night).sum
      ∧ t.xc_dual_recvd =
        ((flights.filter (fun f => f.user == user)).map
          (fun f => min f.time_xc f.dual_recvd)).sum
      ∧ t.xc_solo =
        ((flights.filter (fun f => f.user == user)).map
          (fun f => min f.time_xc f.time_solo)).sum
      ∧ t.xc_pic =
        ((flights.filter (fun f => f.user == user)).map
          (fun f => min f.time_xc f.time_pic)).sum
      ∧ t.night_dual_recvd =
        ((flights.filter (fun f => f.user == user)).map
          (fun f => min f.time_night f.dual_recvd)).sum
      ∧ t.night_pic =
        ((flights.filter (fun f => f.user == user)).map
          (fun f => min f.time_night f.time_pic)).sum) := by
  intro flights aircraftL user s e bc t h
  have ht : t = totalsGroup (flights.filter (fun f => f.user == user)) := by
    dsimp [retrieve_totals, totals_list] at h
    by_cases hm : (flights.filter (fun f => f.user == user)).isEmpty
    · by_cases hb : (by_class_list aircraftL flights user).isEmpty <;>
        simp [hm, hb] at h
    · simp [hm] at h
      exact h.2.symm
  subst ht
  dsimp [totalsGroup]
  exact ⟨rfl, rfl, rfl, rfl, rfl, rfl, rfl, rfl, rfl, rfl, rfl, rfl, rfl,
    rfl, rfl⟩

/-- C3 witness: the totals of the two concrete fixture flights equal the
stated sums. -/
theorem C3_totals_are_sums_witness :
    (totalsGroup [flight_g1, flight_g2]).xc_dual_recvd =
      (([flight_g1, flight_g2].filter (fun f => f.user == "u1")).map
        (fun f => min f.time_xc f.dual_recvd)).sum :=
  (C3_totals_are_sums [flight_g1, flight_g2] [] "u1" none none []
    (totalsGroup [flight_g1, flight_g2]) rfl).2.2.2.2.2.2.2.2.2.2.1

/-- C6: each per-flight overlap contribution min(a, b) is bounded by both of
its operands, and in the aggregated totals the three cross-country overlap
metrics never exceed the aggregated time_xc while the two night overlap
metrics never exceed the aggregated time_night. -/
theorem C6_overlap_bounds :
    ∀ fs : List Flight,
      (∀ f ∈ fs,
        min f.time_xc f.dual_recvd ≤ f.time_xc
        ∧ min f.time_xc f.dual_recvd ≤ f.dual_recvd
        ∧ min f.time_xc f.time_solo ≤ f.time_xc
        ∧ min f.time_xc f.time_solo ≤ f.time_solo
        ∧ min f.time_xc f.time_pic ≤ f.time_xc
        ∧ min f.time_xc f.time_pic ≤ f.time_pic
        ∧ min f.time_night f.dual_recvd ≤ f.time_night
        ∧ min f.time_night f.dual_recvd ≤ f.dual_recvd
        ∧ min f.time_night f.time_pic ≤ f.time_night
        ∧ min f.time_night f.time_pic ≤ f.time_pic)
      ∧ (totalsGroup fs).xc_dual_recvd ≤ (totalsGroup fs).time_xc
      ∧ (totalsGroup fs).xc_solo ≤ (totalsGroup fs).time_xc
      ∧ (totalsGroup fs).xc_pic ≤ (totalsGroup fs).time_xc
      ∧ (totalsGroup fs).night_dual_recvd ≤ (totalsGroup fs).time_night
      ∧ (totalsGroup fs).night_pic ≤ (totalsGroup fs).time_night := by
  intro fs
  refine ⟨?_, ?_, ?_, ?_, ?_, ?_⟩
  · intro f _
    exact ⟨min_le_left _ _, min_le_right _ _, min_le_left _ _,
      min_le_right _ _, min_le_left _ _, min_le_right _ _, min_le_left _ _,
      min_le_right _ _, min_le_left _ _, min_le_right _ _⟩
  all_goals
    dsimp [totalsGroup]
    exact List.sum_le_sum (fun f _ => min_le_left _ _)

/-- C6 witness: the aggregate bound at the concrete fixture flights. -/
theorem C6_overlap_bounds_witness :
    (totalsGroup [flight_g1, flight_g2]).xc_dual_recvd ≤
      (totalsGroup [flight_g1, flight_g2]).time_xc :=
  (C6_overlap_bounds [flight_g1, flight_g2]).2.1

/-- Helper: fetching an aircraft by id after update_aircraft_field set its
hobbs returns the previously fetched document with the new hobbs value. -/
theorem find_set_hobbs_first (store : List Aircraft) (id : String) (v : Rat) :
    retrieve_aircraft_by_id (set_hobbs_first store id v) id =
      (retrieve_aircraft_by_id store id).map
        (fun a => { a with hobbs := v }) := by
  induction store with
  | nil => rfl
  | cons a rest ih =>
    by_cases h : a.id == id
    · simp [retrieve_aircraft_by_id, set_hobbs_first, List.find?_cons, h]
    · simp only [retrieve_aircraft_by_id, set_hobbs_first, if_neg h,
        List.find?_cons] at *
      simp [h, ih]

/-- C5 counterexample: aircraft N12345 stored at hobbs 100; a flight created
with hobbs_end = 0.0, which is present and differs from 100, leaves the
aircraft's hobbs at 100 because the guard at src/database/flights.py line 178
tests the Python truthiness of hobbs_end (0.0 is falsy) and hobbs_end > 0.
The claim says the stored hobbs would become 0. -/
theorem C5_counterexample :
    body_hobbs_zero.hobbs_end = some 0
    ∧ ac_n12345.hobbs = 100
    ∧ (some (0 : Rat) ≠ (none : Option Rat) ∧ (0 : Rat) ≠ ac_n12345.hobbs)
    ∧ insert_flight [ac_n12345] [] body_hobbs_zero "u1" =
        .ok ([ac_n12345], [{ body_hobbs_zero with user := "u1" }]) := by
  refine ⟨rfl, rfl, ⟨by decide, by norm_num [ac_n12345]⟩, ?_⟩
  dsimp [insert_flight, retrieve_aircraft_by_tail, body_hobbs_zero]
  norm_num [ac_n12345]

/-- C5 amended: on create the referenced aircraft's stored hobbs becomes
hobbs_end exactly when hobbs_end is present, nonzero (Python truthiness),
strictly positive, and differs from the stored value; on full update exactly
when hobbs_end is present and nonzero (tested twice in the source) and the
stored hobbs is strictly positive and differs from hobbs_end; in every other
case the stored hobbs is unchanged. -/
theorem C5_hobbs_sync :
    ∀ (aircraftL : List Aircraft) (flights : List Flight) (body : Flight)
      (uid : String) (a : Aircraft),
      retrieve_aircraft_by_tail aircraftL body.aircraft = some a →
      retrieve_aircraft_by_id aircraftL a.id = some a →
      ((∀ aL fl, insert_flight aircraftL flights body uid = .ok (aL, fl) →
          retrieve_aircraft_by_id aL a.id =
            some (match body.hobbs_end with
                  | some he =>
                    if he ≠ 0 ∧ 0 < he ∧ he ≠ a.hobbs then
                      { a with hobbs := he }
                    else a
                  | none => a))
       ∧ (∀ fid aL fl, (find_flight flights fid).isSome →
            update_flight aircraftL flights body fid = .ok (aL, fl) →
            retrieve_aircraft_by_id aL a.id =
              some (match body.hobbs_end with
                    | some he =>
                      if he ≠ 0 ∧ he ≠ 0 ∧ 0 < a.hobbs ∧ a.hobbs ≠ he then
                        { a with hobbs := he }
                      else a
                    | none => a))) := by
  intro aL0 fl0 body uid a htail hid
  constructor
  · intro aL fl h
    dsimp [insert_flight] at h
    rw [htail] at h
    cases hhe : body.hobbs_end with
    | none =>
      rw [hhe] at h
      cases h
      exact hid
    | some he =>
      rw [hhe] at h
      dsimp at h
      by_cases hc : he ≠ 0 ∧ 0 < he ∧ he ≠ a.hobbs
      · rw [if_pos hc] at h
        cases h
        dsimp only
        rw [if_pos hc, find_set_hobbs_first, hid]
        rfl
      · rw [if_neg hc] at h
        cases h
        dsimp only
        rw [if_neg hc]
        exact hid
  · intro fid aL fl hsome h
    obtain ⟨g, hg⟩ := Option.isSome_iff_exists.mp hsome
    dsimp [update_flight] at h
    rw [hg] at h
    dsimp at h
    rw [htail] at h
    cases hhe : body.hobbs_end with
    | none =>
      rw [hhe] at h
      cases h
      exact hid
    | some he =>
      rw [hhe] at h
      dsimp at h
      by_cases hc : he ≠ 0 ∧ he ≠ 0 ∧ 0 < a.hobbs ∧ a.hobbs ≠ he
      · rw [if_pos hc] at h
        cases h
        dsimp only
        rw [if_pos hc, find_set_hobbs_first, hid]
        rfl
      · rw [if_neg hc] at h
        cases h
        dsimp only
        rw [if_neg hc]
        exact hid

/-- C5 witness: the spec scenario - aircraft N12345 at hobbs 100.0, a flight
logged with hobbs_end 102.5, and the re-fetched aircraft reads 102.5. -/
theorem C5_hobbs_sync_witness :
    retrieve_aircraft_by_id [{ ac_n12345 with hobbs := 205 / 2 }]
      ac_n12345.id = some { ac_n12345 with hobbs := 205 / 2 } := by
  have h := (C5_hobbs_sync [ac_n12345] [] body_hobbs_1025 "u1" ac_n12345
    rfl rfl).1 [{ ac_n12345 with hobbs := 205 / 2 }]
    [{ body_hobbs_1025 with user := "u1" }] ?hins
  · refine h.trans ?_
    norm_num [body_hobbs_1025, ac_n12345]
  case hins =>
    dsimp [insert_flight, retrieve_aircraft_by_tail, body_hobbs_1025]
    norm_num [ac_n12345, set_hobbs_first]

/-- C9: for a stored flight and a caller who neither owns it nor holds ADMIN
level, the get-by-id, full-update, patch and delete routes all fail with 403;
in the embedding an error return carries no updated store, matching the source
where the exception is raised before any database write. Conversely the owner
or an ADMIN passes the get_flight ownership check. -/
theorem C9_flight_ownership :
    ∀ (aircraftL : List Aircraft) (flights : List Flight) (u : RouteUser)
      (fid : String) (f : Flight) (body : Flight) (p : FlightPatch),
      find_flight flights fid = some f →
      ((f.user ≠ u.id ∧ u.level ≠ .ADMIN →
          get_flight_route flights u fid = .error 403
          ∧ update_flight_route aircraftL flights u fid body = .error 403
          ∧ patch_flight_route aircraftL flights u fid p = .error 403
          ∧ delete_flight_route flights u fid = .error 403)
       ∧ (f.user = u.id ∨ u.level = .ADMIN →
          get_flight_route flights u fid = .ok f)) := by
  intro aL fl u fid f body p hf
  constructor
  · intro hc
    have h1 : get_flight_route fl u fid = .error 403 := by
      dsimp [get_flight_route]
      rw [hf]
      dsimp only
      rw [if_pos hc]
    refine ⟨h1, ?_, ?_, ?_⟩ <;>
      simp [update_flight_route, patch_flight_route, delete_flight_route, h1]
  · intro hc
    dsimp [get_flight_route]
    rw [hf]
    dsimp only
    rw [if_neg]
    rcases hc with hc | hc
    · exact fun hn => hn.1 hc
    · exact fun hn => hn.2 hc

/-- C9 witness: user u2 at USER level is rejected with 403 on user u1's
flight for both read and delete. -/
theorem C9_flight_ownership_witness :
    get_flight_route [flight_u1_early] user_bob "f1" = .error 403
    ∧ delete_flight_route [flight_u1_early] user_bob "f1" = .error 403 := by
  have h := (C9_flight_ownership [] [flight_u1_early] user_bob "f1"
    flight_u1_early flight_u1_early { keys := [] } rfl).1 (by decide)
  exact ⟨h.1, h.2.2.2⟩

/-- Helper: banker's rounding moves a rational by at most one half. -/
theorem abs_round_half_even (y : Rat) :
    |(round_half_even y : Rat) - y| ≤ 1 / 2 := by
  have h1 : (⌊y⌋ : Rat) ≤ y := Int.floor_le y
  have h2 : y < ⌊y⌋ + 1 := Int.lt_floor_add_one y
  rw [abs_le]
  unfold round_half_even
  split_ifs with hlt hgt hev
  · constructor <;> linarith
  · push_cast
    constructor <;> linarith
  · constructor <;> linarith
  · push_cast
    constructor <;> linarith

/-- Helper: rounding at the second decimal moves a rational by at most
1/200 = 0.005. -/
theorem round_two_sub_abs (x : Rat) :
    |round_two_decimal_places x - x| ≤ 1 / 200 := by
  have h := abs_round_half_even (100 * x)
  rw [abs_le] at *
  unfold round_two_decimal_places
  constructor <;> [skip; skip] <;>
    · obtain ⟨ha, hb⟩ := h
      linarith

/-- Helper: a rational that already has at most two decimal places is a fixed
point of round_two_decimal_places. -/
theorem round_two_fix (k : Int) :
    round_two_decimal_places ((k : Rat) / 100) = (k : Rat) / 100 := by
  have h100 : (100 : Rat) * ((k : Rat) / 100) = (k : Rat) := by
    field_simp
  unfold round_two_decimal_places round_half_even
  rw [h100, Int.floor_intCast]
  norm_num

/-- Helper: round_two_decimal_places is idempotent. -/
theorem round_two_idem (x : Rat) :
    round_two_decimal_places (round_two_decimal_places x) =
      round_two_decimal_places x :=
  round_two_fix (round_half_even (100 * x))

/-- C10: the shared PositiveFloat validation rejects every negative value and
stores an accepted value rounded to two decimal places; the rounding fixes
values that already have two decimals (hence validation is idempotent) and
moves a value by at most 0.005. -/
theorem C10_positive_float_validation :
    ∀ x : Rat,
      (x < 0 →
        positive_float_validate x =
          .error "Input should be greater than or equal to 0")
      ∧ (0 ≤ x →
        positive_float_validate x = .ok (round_two_decimal_places x))
      ∧ (∀ k : Int, x = (k : Rat) / 100 → round_two_decimal_places x = x)
      ∧ round_two_decimal_places (round_two_decimal_places x) =
          round_two_decimal_places x
      ∧ |round_two_decimal_places x - x| ≤ 1 / 200 := by
  intro x
  refine ⟨?_, ?_, ?_, round_two_idem x, round_two_sub_abs x⟩
  · intro h
    dsimp [positive_float_validate]
    rw [if_pos h]
  · intro h
    dsimp [positive_float_validate]
    rw [if_neg (not_lt.mpr h)]
  · rintro k rfl
    exact round_two_fix k

/-- C10 witness: -1 is rejected, 0.125 is accepted and stored rounded (to
0.12 by the banker's tie-break), and 0.12 itself is a fixed point. -/
theorem C10_positive_float_validation_witness :
    positive_float_validate (-1) =
      .error "Input should be greater than or equal to 0"
    ∧ positive_float_validate (1 / 8) =
        .ok (round_two_decimal_places (1 / 8))
    ∧ round_two_decimal_places ((12 : Rat) / 100) = (12 : Rat) / 100 :=
  ⟨(C10_positive_float_validation (-1)).1 (by norm_num),
   (C10_positive_float_validation (1 / 8)).2.1 (by norm_num),
   (C10_positive_float_validation ((12 : Rat) / 100)).2.2.1 12 rfl⟩

end Tailfin
